import Mathlib

/-!
Shallow embedding of `src/lib.rs` of the webauthn-rs repository: a
relying-party WebAuthn engine with challenge issuance, credential
registration and login verification.

Modelling conventions:
- bytes are `Nat` values (byte slices are `List Nat`); multi-byte
  big-endian reads normalise each byte with `% 256` as the Rust `u8`
  type guarantees;
- Rust panics (`expect` on decode failures, out-of-bounds slice
  indexing) are modelled as `Except.error` with a `Panic` value naming
  the panic site; a normal return of `bool` from `register`/`verify`
  is `Except.ok (b, state)` with the post-state made explicit;
- the external decoding libraries (base64, serde_json, serde_cbor) are
  abstracted as a `Codec` record of oracle functions returning
  `Option`; `none` models a library decode failure (which the source
  turns into a panic via `expect`);
- `std::collections::HashMap` is modelled as a function into `Option`,
  with `insert` as a pointwise update;
- the random generation in `Challenge::new` is made explicit: the
  fresh challenge is a parameter of `generate_challenge`.
-/

/-- Mirrors `struct Credential { id: String }` from the source. -/
structure Credential where
  id : String
deriving DecidableEq

/-- Modelled from the spec: the `challenge` module (`src/challenge.rs`) is not
present in the sources; the spec describes a `Challenge` as a random byte
sequence (at least 16 bytes, 32 recommended).  Only its data content matters
to the engine, so it is a wrapper around its bytes. -/
structure Challenge where
  bytes : List Nat
deriving DecidableEq

/-- Mirrors `struct WebAuthn` from the source: the relying-party string and
the two `HashMap`s, modelled as functions into `Option`. -/
structure WebAuthn where
  relying_party : String
  challenges : String → Option Challenge
  credentials : String → Option (List Credential)

/-- Mirrors `struct ClientData` (deserialized from clientDataJSON). -/
structure ClientData where
  type_ : String
  challenge : String
  origin : String
deriving DecidableEq

/-- Mirrors `struct Attestation` (deserialized from the CBOR attestation
object): the format string and the raw authenticator-data bytes. -/
structure Attestation where
  fmt : String
  auth_data : List Nat
deriving DecidableEq

/-- Mirrors `struct CredentialsResponse` of a registration request. -/
structure CredentialsResponse where
  attestation_object : String
  client_data_json : String
deriving DecidableEq

/-- Mirrors `struct RegisterRequest`. -/
structure RegisterRequest where
  id : String
  raw_id : String
  response : CredentialsResponse
  type_ : String
deriving DecidableEq

/-- Mirrors `struct AuthenticatorAssertionResponse` of a login request. -/
structure AuthenticatorAssertionResponse where
  authenticator_data : String
  client_data_json : String
  signature : String
deriving DecidableEq

/-- Mirrors `struct LoginRequest`. -/
structure LoginRequest where
  response : AuthenticatorAssertionResponse
deriving DecidableEq

/-- Mirrors `struct AttestedCredentialData` (the public key is commented out
in the source and hence absent here as well). -/
structure AttestedCredentialData where
  aaguid : List Nat
  credentialid_length : Nat
  credentialid : List Nat
deriving DecidableEq

/-- Mirrors `struct DecodedAuthData`. -/
structure DecodedAuthData where
  rpid_hash : List Nat
  user_present : Bool
  user_verified : Bool
  attested_credential_data_included : Bool
  extension_data_included : Bool
  counter : Nat
  attested_credential_data : AttestedCredentialData
deriving DecidableEq

/-- The panic sites of the source, one constructor per `expect` message plus
one for out-of-bounds slice indexing.  A Rust panic aborts the request (and,
absent a catch, the process); it is not a returned error value. -/
inductive Panic where
  | couldNotConvertClientData
  | couldNotParseClientData
  | couldNotDecodeAttestationObject
  | couldNotParseAttestationObject
  | indexOutOfBounds
deriving DecidableEq

/-- The external decoding libraries used by the source (base64, serde_json,
serde_cbor), abstracted as oracles; `none` is a library-level decode
failure. -/
structure Codec where
  base64Decode : String → Option (List Nat)
  parseClientData : List Nat → Option ClientData
  parseAttestation : List Nat → Option Attestation

/-- `byteorder::BigEndian::read_u16` on two bytes. -/
def readU16BE (b0 b1 : Nat) : Nat :=
  (b0 % 256) * 256 + (b1 % 256)

/-- `byteorder::BigEndian::read_u32` on four bytes. -/
def readU32BE (b0 b1 b2 b3 : Nat) : Nat :=
  (((b0 % 256) * 256 + (b1 % 256)) * 256 + (b2 % 256)) * 256 + (b3 % 256)

/-- Mirrors `impl From<&[u8]> for AttestedCredentialData`.  The source slices
`v[16..18]` (panics below 18 bytes), then `&v[18 + L..]` and `v[18..18 + L]`
(panic when the declared credential-id length `L` overruns the buffer);
these panics are the `indexOutOfBounds` error.  The public-key CBOR decode
is commented out in the source. -/
def attestedCredentialDataFrom (v : List Nat) : Except Panic AttestedCredentialData :=
  if v.length < 18 then Except.error Panic.indexOutOfBounds
  else
    let credentialid_length := readU16BE (v.getD 16 0) (v.getD 17 0)
    if v.length < 18 + credentialid_length then Except.error Panic.indexOutOfBounds
    else Except.ok
      { aaguid := v.take 16
        credentialid_length := credentialid_length
        credentialid := (v.drop 18).take credentialid_length }

/-- Mirrors `impl From<&[u8]> for DecodedAuthData`.  The source reads
`v[32]`, `v[0..32]` and `v[33..37]` without bounds checks, so any input
shorter than 37 bytes panics with an index-out-of-bounds; the remainder
`v[37..]` is then decoded by `attestedCredentialDataFrom`, whose panics
propagate. -/
def decodedAuthDataFrom (v : List Nat) : Except Panic DecodedAuthData :=
  if v.length < 37 then Except.error Panic.indexOutOfBounds
  else
    let flags := v.getD 32 0 % 256
    match attestedCredentialDataFrom (v.drop 37) with
    | Except.error p => Except.error p
    | Except.ok acd => Except.ok
        { rpid_hash := v.take 32
          user_present := (flags &&& 1) != 0
          user_verified := (flags &&& 4) != 0
          attested_credential_data_included := (flags &&& 64) != 0
          extension_data_included := (flags &&& 128) != 0
          counter := readU32BE (v.getD 33 0) (v.getD 34 0) (v.getD 35 0) (v.getD 36 0)
          attested_credential_data := acd }

/-- Mirrors `WebAuthn::new`. -/
def WebAuthn.new (relying_party : String) : WebAuthn :=
  { relying_party := relying_party
    challenges := fun _ => none
    credentials := fun _ => none }

/-- Mirrors `WebAuthn::generate_challenge`.  `Challenge::new` draws fresh
random bytes; that draw is the explicit `fresh` parameter.  The `HashMap`
insert replaces any previous entry for `username`. -/
def WebAuthn.generate_challenge (s : WebAuthn) (username : String) (fresh : Challenge) :
    Challenge × WebAuthn :=
  (fresh,
    { s with challenges := fun k => if k = username then some fresh else s.challenges k })

/-- Mirrors `WebAuthn::get_credentials`: `self.credentials.get(&username)
.unwrap_or(&vec![]).to_vec()`.  The receiver is `&self`, so no state is
returned. -/
def WebAuthn.get_credentials (s : WebAuthn) (username : String) : List Credential :=
  (s.credentials username).getD []

/-- Mirrors `WebAuthn::register`.  The decode steps use `expect` in the
source, hence `Except.error` on a `none` from the codec.  The challenge
comparison (`client_data.challenge != "xx"`) and the origin comparison
(`client_data.origin != "ll"`) appear in the source with their `return
false` bodies commented out, so neither influences the result; they bind
nothing and are represented only by this comment.  The SHA-256 hash of the
client data is computed in the source solely for logging and is dropped
here.  On the success path the source inserts a single credential under the
fixed key `"xxx"`. -/
def WebAuthn.register (c : Codec) (s : WebAuthn) (req : RegisterRequest) :
    Except Panic (Bool × WebAuthn) :=
  match c.base64Decode req.response.client_data_json with
  | none => Except.error Panic.couldNotConvertClientData
  | some decoded_client_data_json_vec =>
    match c.parseClientData decoded_client_data_json_vec with
    | none => Except.error Panic.couldNotParseClientData
    | some client_data =>
      if client_data.type_ ≠ ("webauthn.create") then Except.ok (false, s)
      else
        match c.base64Decode req.response.attestation_object with
        | none => Except.error Panic.couldNotDecodeAttestationObject
        | some attestation_object_vec =>
          match c.parseAttestation attestation_object_vec with
          | none => Except.error Panic.couldNotParseAttestationObject
          | some attestation =>
            match decodedAuthDataFrom attestation.auth_data with
            | Except.error p => Except.error p
            | Except.ok _decoded_auth_data =>
              Except.ok (true,
                { s with credentials := fun k =>
                    if k = ("xxx") then some [{ id := req.raw_id }] else s.credentials k })

/-- Mirrors `WebAuthn::verify`: it decodes and parses the client data JSON
(panicking on failure) and then unconditionally returns `false`, touching no
state. -/
def WebAuthn.verify (c : Codec) (s : WebAuthn) (req : LoginRequest) :
    Except Panic (Bool × WebAuthn) :=
  match c.base64Decode req.response.client_data_json with
  | none => Except.error Panic.couldNotConvertClientData
  | some decoded_client_data_json_vec =>
    match c.parseClientData decoded_client_data_json_vec with
    | none => Except.error Panic.couldNotParseClientData
    | some _client_data => Except.ok (false, s)

/-! Concrete inputs used to exercise the engine in the theorems below. -/

/-- A freshly constructed engine configured for `https://example.com`. -/
def demoRP : WebAuthn := WebAuthn.new ("https://example.com")

/-- A registration request with distinct field values. -/
def demoReq : RegisterRequest :=
  { id := "cred1"
    raw_id := "rawid1"
    response := { attestation_object := "att", client_data_json := "cdj" }
    type_ := "public-key" }

/-- Authenticator data long enough for every slice in the source: 37 header
bytes plus an 18-byte attested-credential-data section declaring a zero
credential-id length. -/
def demoAuthData : List Nat := List.replicate 55 0

/-- A codec whose client data decodes to a `webauthn.create` ceremony whose
origin is `https://evil.com` — a foreign origin relative to `demoRP` — and
whose challenge field differs from any issued challenge. -/
def demoCodec : Codec :=
  { base64Decode := fun _ => some []
    parseClientData := fun _ => some
      { type_ := "webauthn.create", challenge := "AAAA", origin := "https://evil.com" }
    parseAttestation := fun _ => some { fmt := "none", auth_data := demoAuthData } }

/-- The state `WebAuthn.register demoCodec demoRP demoReq` succeeds into:
`demoRP` with one credential inserted under the fixed key `"xxx"`. -/
def demoAfter : WebAuthn :=
  { demoRP with credentials := fun k =>
      if k = ("xxx") then some [{ id := demoReq.raw_id }] else demoRP.credentials k }

/-- A codec whose base64 decoding always fails, as for a clientDataJSON
field that is not valid base64. -/
def badCodec : Codec :=
  { base64Decode := fun _ => none
    parseClientData := fun _ => none
    parseAttestation := fun _ => none }

/-- A state with the challenge `[1, 2, 3]` pending for user `alice`. -/
def chalState : WebAuthn :=
  { demoRP with challenges := fun k =>
      if k = ("alice") then some { bytes := [1, 2, 3] } else none }

/-- The state reached by a successful `register` run on `chalState`. -/
def chalStateAfter : WebAuthn :=
  { chalState with credentials := fun k =>
      if k = ("xxx") then some [{ id := demoReq.raw_id }] else chalState.credentials k }

/-- A login request with fixed field values. -/
def demoLogin : LoginRequest :=
  { response := { authenticator_data := "ad", client_data_json := "cdj", signature := "sig" } }

/-- A state holding one registered credential for user `alice`. -/
def credState : WebAuthn :=
  { demoRP with credentials := fun k =>
      if k = ("alice") then some [{ id := "cred1" }] else none }

/-- A codec decoding the client data of a login (`webauthn.get`) ceremony at
the configured origin. -/
def getCodec : Codec :=
  { base64Decode := fun _ => some []
    parseClientData := fun _ => some
      { type_ := "webauthn.get", challenge := "AAAA", origin := "https://example.com" }
    parseAttestation := fun _ => none }

/-- A two-byte fresh challenge used to exercise `generate_challenge`. -/
def chal8 : Challenge := { bytes := [9, 9] }

/-- Every non-panicking run of `register` either rejects with `false` leaving
the state untouched, or accepts with `true` having inserted the single
credential under the fixed key `"xxx"`. -/
theorem register_ok_shape (c : Codec) (s : WebAuthn) (req : RegisterRequest)
    (b : Bool) (s2 : WebAuthn)
    (h : WebAuthn.register c s req = Except.ok (b, s2)) :
    (b = false ∧ s2 = s) ∨
    (b = true ∧ s2 = { s with credentials := fun k =>
        if k = ("xxx") then some [{ id := req.raw_id }] else s.credentials k }) := by
  unfold WebAuthn.register at h
  repeat' split at h
  all_goals simp_all

/-- Every non-panicking run of `verify` returns `false` and the unchanged
input state. -/
theorem verify_ok_shape (c : Codec) (s : WebAuthn) (req : LoginRequest)
    (b : Bool) (s2 : WebAuthn)
    (h : WebAuthn.verify c s req = Except.ok (b, s2)) :
    b = false ∧ s2 = s := by
  unfold WebAuthn.verify at h
  repeat' split at h
  all_goals simp_all

/-- Claim C1 theorem: with the relying party configured as
`https://example.com` and the client data carrying origin
`https://evil.com`, `register` does not fail with any origin error — it
returns `true` (the origin check in the source is commented out). -/
theorem register_accepts_foreign_origin :
    (demoCodec.parseClientData []).map ClientData.origin = some ("https://evil.com") ∧
    demoRP.relying_party = ("https://example.com") ∧
    WebAuthn.register demoCodec demoRP demoReq = Except.ok (true, demoAfter) :=
  ⟨rfl, rfl, rfl⟩

/-- Claim C2 theorem: `register` never consumes a pending challenge — every
non-panicking run leaves the challenge map exactly as it was, so the same
challenge stays pending across arbitrarily many registration ceremonies and
no second attempt can fail with a ChallengeNotFound-style error. -/
theorem register_never_consumes_challenge (c : Codec) (s : WebAuthn)
    (req : RegisterRequest) (b : Bool) (s2 : WebAuthn)
    (h : WebAuthn.register c s req = Except.ok (b, s2)) :
    s2.challenges = s.challenges := by
  rcases register_ok_shape c s req b s2 h with ⟨_, h2⟩ | ⟨_, h2⟩ <;> rw [h2]

/-- Claim C2 witness: a concrete run of `register` on `chalState` succeeds
yet leaves the pending challenge map untouched. -/
theorem register_never_consumes_challenge_witness :
    WebAuthn.register demoCodec chalState demoReq = Except.ok (true, chalStateAfter) ∧
    chalStateAfter.challenges = chalState.challenges :=
  ⟨rfl, register_never_consumes_challenge demoCodec chalState demoReq true chalStateAfter rfl⟩

/-- Claim C3 theorem: with challenge bytes `[1, 2, 3]` pending for user
`alice` and the client data presenting the different challenge field
`AAAA`, `register` does not fail with any ChallengeMismatch-style error: the
source compares the field against the literal `"xx"` with the rejection
commented out, so registration succeeds and the pending challenge
survives. -/
theorem register_accepts_mismatched_challenge :
    chalState.challenges ("alice") = some (Challenge.mk [1, 2, 3]) ∧
    (demoCodec.parseClientData []).map ClientData.challenge = some ("AAAA") ∧
    WebAuthn.register demoCodec chalState demoReq = Except.ok (true, chalStateAfter) ∧
    chalStateAfter.challenges ("alice") = some (Challenge.mk [1, 2, 3]) :=
  ⟨rfl, rfl, rfl, rfl⟩

/-- Claim C4 theorem: on every input shorter than 37 bytes the
authenticator-data decoder hits an unchecked slice index and panics
(`indexOutOfBounds`); the source has no MalformedInput error channel at
all. -/
theorem short_auth_data_panics (v : List Nat) (h : v.length < 37) :
    decodedAuthDataFrom v = Except.error Panic.indexOutOfBounds := by
  unfold decodedAuthDataFrom
  rw [if_pos h]

/-- Claim C4 witness: the empty input is shorter than 37 bytes and makes the
decoder panic. -/
theorem short_auth_data_panics_witness :
    ([] : List Nat).length < 37 ∧
    decodedAuthDataFrom [] = Except.error Panic.indexOutOfBounds :=
  ⟨by decide, short_auth_data_panics [] (by decide)⟩

/-- Claim C5 theorem: untrusted-input decode paths panic instead of
returning a MalformedInput result: an attested-credential-data section of 18
bytes declaring credential-id length 65535 overruns the buffer and panics;
a clientDataJSON that the base64 decoder rejects makes `register` panic via
`expect`; and even a 37-byte authenticator data panics because its empty
attested-credential-data section is sliced unconditionally. -/
theorem decode_paths_panic :
    attestedCredentialDataFrom (List.replicate 16 0 ++ [255, 255]) =
      Except.error Panic.indexOutOfBounds ∧
    WebAuthn.register badCodec demoRP demoReq =
      Except.error Panic.couldNotConvertClientData ∧
    decodedAuthDataFrom (List.replicate 37 0) = Except.error Panic.indexOutOfBounds :=
  ⟨rfl, rfl, rfl⟩

/-- Claim C6 theorem: `verify` contains no counter logic at all — on a state
holding a registered credential, a login that per the spec should pass every
check (and in particular any presented counter greater than the stored one)
still returns `false`, and the state (hence any stored counter) is returned
unchanged.  The source `Credential` does not even carry a counter field. -/
theorem verify_never_applies_counter_rules :
    WebAuthn.verify getCodec credState demoLogin = Except.ok (false, credState) :=
  rfl

/-- Claim C7 theorem: every non-panicking run of `verify` returns `false`
and leaves the engine state (challenges and credentials) exactly as it
was. -/
theorem verify_always_fails_and_preserves_state (c : Codec) (s : WebAuthn)
    (req : LoginRequest) (b : Bool) (s2 : WebAuthn)
    (h : WebAuthn.verify c s req = Except.ok (b, s2)) :
    b = false ∧ s2 = s :=
  verify_ok_shape c s req b s2 h

/-- Claim C7 witness: a concrete run of `verify` returns `false` with the
state unchanged. -/
theorem verify_always_fails_witness :
    WebAuthn.verify getCodec demoRP demoLogin = Except.ok (false, demoRP) ∧
    (false = false ∧ demoRP = demoRP) :=
  ⟨rfl, verify_always_fails_and_preserves_state getCodec demoRP demoLogin false demoRP rfl⟩

/-- Claim C8 theorem: the challenge store keeps at most one pending
challenge per username — `generate_challenge` makes the fresh challenge the
sole pending one for that user (replacing any prior one) while leaving every
other user's slot alone, and neither `register` nor `verify` ever changes
the challenge store (`get_credentials` reads through `&self` and cannot). -/
theorem single_pending_challenge_invariant (s : WebAuthn) (u k : String) (f : Challenge) :
    ((WebAuthn.generate_challenge s u f).2.challenges u = some f) ∧
    (k ≠ u → (WebAuthn.generate_challenge s u f).2.challenges k = s.challenges k) ∧
    (∀ c req b s2, WebAuthn.register c s req = Except.ok (b, s2) →
      s2.challenges = s.challenges) ∧
    (∀ c req b s2, WebAuthn.verify c s req = Except.ok (b, s2) →
      s2.challenges = s.challenges) := by
  refine ⟨?_, ?_, ?_, ?_⟩
  · simp [WebAuthn.generate_challenge]
  · intro hk
    simp [WebAuthn.generate_challenge, hk]
  · intro c req b s2 h
    rcases register_ok_shape c s req b s2 h with ⟨_, h2⟩ | ⟨_, h2⟩ <;> rw [h2]
  · intro c req b s2 h
    rw [(verify_ok_shape c s req b s2 h).2]

/-- Claim C8 witness: concrete run on `credState` — issuing for `alice`
replaces her pending challenge, leaves `bob` untouched, and a concrete
`verify` run leaves the challenge store unchanged. -/
theorem single_pending_challenge_invariant_witness :
    ((WebAuthn.generate_challenge credState ("alice") chal8).2.challenges ("alice")
      = some chal8) ∧
    (("bob" : String) ≠ ("alice")) ∧
    ((WebAuthn.generate_challenge credState ("alice") chal8).2.challenges ("bob")
      = credState.challenges ("bob")) ∧
    (WebAuthn.verify getCodec credState demoLogin = Except.ok (false, credState)) ∧
    (credState.challenges = credState.challenges) :=
  ⟨(single_pending_challenge_invariant credState ("alice") ("bob") chal8).1,
    by decide,
    (single_pending_challenge_invariant credState ("alice") ("bob") chal8).2.1 (by decide),
    rfl,
    (single_pending_challenge_invariant credState ("alice") ("bob") chal8).2.2.2
      getCodec demoLogin false credState rfl⟩

/-- Claim C9 theorem: for a username with no stored credential entry,
`get_credentials` returns the empty list rather than failing; it reads the
state through `&self`, so it cannot modify the challenge or credential
maps. -/
theorem get_credentials_empty_for_unregistered (s : WebAuthn) (u : String)
    (h : s.credentials u = none) :
    WebAuthn.get_credentials s u = [] := by
  unfold WebAuthn.get_credentials
  rw [h]
  rfl

/-- Claim C9 witness: a fresh engine has no credentials for `carol` and
`get_credentials` returns the empty list for her. -/
theorem get_credentials_empty_for_unregistered_witness :
    demoRP.credentials ("carol") = none ∧
    WebAuthn.get_credentials demoRP ("carol") = [] :=
  ⟨rfl, get_credentials_empty_for_unregistered demoRP ("carol") rfl⟩

/-- Claim C10 theorem: whenever `register` returns `true`, the credential
map holds exactly the one-element list `[{ id := req.raw_id }]` under the
fixed key `"xxx"` — overwriting whatever was stored there — and every other
key (in particular any actual username) is left untouched. -/
theorem register_success_overwrites_fixed_key (c : Codec) (s : WebAuthn)
    (req : RegisterRequest) (s2 : WebAuthn)
    (h : WebAuthn.register c s req = Except.ok (true, s2)) :
    s2.credentials ("xxx") = some [{ id := req.raw_id }] ∧
    ∀ k, k ≠ ("xxx") → s2.credentials k = s.credentials k := by
  rcases register_ok_shape c s req true s2 h with ⟨h1, _⟩ | ⟨_, h2⟩
  · exact absurd h1 (by decide)
  · subst h2
    refine ⟨by simp, ?_⟩
    intro k hk
    simp [hk]

/-- Claim C10 witness: a concrete successful registration stores the
credential under `"xxx"` and leaves `alice` without any entry. -/
theorem register_success_overwrites_fixed_key_witness :
    WebAuthn.register demoCodec demoRP demoReq = Except.ok (true, demoAfter) ∧
    demoAfter.credentials ("xxx") = some [{ id := demoReq.raw_id }] ∧
    demoAfter.credentials ("alice") = demoRP.credentials ("alice") :=
  ⟨rfl,
    (register_success_overwrites_fixed_key demoCodec demoRP demoReq demoAfter rfl).1,
    (register_success_overwrites_fixed_key demoCodec demoRP demoReq demoAfter rfl).2
      ("alice") (by decide)⟩
